import Mathlib

/-!
Verification development for the Autonomous-Trading-Agent backend.

The definitions below are a shallow embedding of the agent's control-loop,
decision and protective-order code found in `backend/src/agent.py`,
`backend/src/api.py` and `backend/src/stop_loss_manager.py`.  Python floats
are modelled as exact rationals (`ℚ`); `None`-able values as `Option`;
a raised `ZeroDivisionError` as `Except`.  The two-decimal percentage
formatting of Python f-strings (`{pct:.2%}`) is abstracted to an exact
rendering of the rational; all other string literals are taken verbatim
from the source.
-/

namespace TradingAgent

/-- Trading action of a decision, the `action` field of the dict returned by
`calculate_trade_decision` (values `'BUY' | 'SELL' | 'HOLD'`). -/
inductive Action where
  | BUY
  | SELL
  | HOLD
deriving DecidableEq, Repr

/-- The `reason` field of a decision.  Each constructor corresponds to one of
the f-string templates in `calculate_trade_decision`; the interpolated
percentage change is carried as data. -/
inductive Reason where
  | missingPriceData
  | predictedIncrease (pct : ℚ)
  | predictedDecrease (pct : ℚ)
  | anyDownward (pct : ℚ)
  | strongUpward (pct : ℚ)
  | belowThreshold (pct : ℚ)
deriving DecidableEq, Repr

/-- Renders a reason to the string of the source, with the Python `{pct:.2%}`
interpolation abstracted to the exact rational times 100 followed by `%`
(the two-decimal float formatting is presentation only). -/
def Reason.text : Reason → String
  | .missingPriceData => "Missing price data"
  | .predictedIncrease pct =>
      "Predicted " ++ toString (pct * 100) ++ "% increase, no current position"
  | .predictedDecrease pct =>
      "Predicted " ++ toString (pct * 100) ++ "% decrease, closing position"
  | .anyDownward pct =>
      "Any downward prediction " ++ toString (pct * 100) ++ "% detected, protecting position"
  | .strongUpward pct =>
      "Strong upward prediction " ++ toString (pct * 100) ++ "%, adding to position"
  | .belowThreshold pct =>
      "Change " ++ toString (pct * 100) ++ "% below threshold or position already optimal"

/-- The dict `{'action': ..., 'qty': ..., 'reason': ...}` returned by
`calculate_trade_decision`. -/
structure Decision where
  action : Action
  qty : ℤ
  reason : Reason
deriving DecidableEq, Repr

/-- Python exceptions that the embedded code can raise. -/
inductive PyExn where
  | ZeroDivisionError
deriving DecidableEq, Repr

/-- Python `int(q)` on a rational: truncation toward zero.  `Int.div` is
T-division, which truncates toward zero since the denominator is positive. -/
def pyInt (q : ℚ) : ℤ := Int.tdiv q.num q.den

instance : DecidableEq (Except PyExn Decision) := fun
  | .ok a, .ok b => decidable_of_iff (a = b) (by simp)
  | .ok _, .error _ => .isFalse (by simp)
  | .error _, .ok _ => .isFalse (by simp)
  | .error a, .error b => decidable_of_iff (a = b) (by simp)

/-- Shallow embedding of `calculate_trade_decision` from `backend/src/agent.py`
(lines 104-163).  A `None` price short-circuits to HOLD before the division;
`current_price = 0` makes `(predicted - current) / current` raise
`ZeroDivisionError` in Python, modelled as `.error`.  The five rules are the
source's `if/elif` chain, in order. -/
def calculate_trade_decision (current_price predicted_price : Option ℚ)
    (position_qty : ℚ) (confidence_threshold : ℚ) : Except PyExn Decision :=
  match current_price, predicted_price with
  | none, _ => .ok ⟨.HOLD, 0, .missingPriceData⟩
  | _, none => .ok ⟨.HOLD, 0, .missingPriceData⟩
  | some current, some predicted =>
    if current = 0 then
      .error .ZeroDivisionError
    else
      let price_change_pct := (predicted - current) / current
      if price_change_pct > confidence_threshold ∧ position_qty = 0 then
        .ok ⟨.BUY, 10, .predictedIncrease price_change_pct⟩
      else if price_change_pct < -confidence_threshold / 2 ∧ position_qty > 0 then
        .ok ⟨.SELL, |pyInt position_qty|, .predictedDecrease price_change_pct⟩
      else if price_change_pct < 0 ∧ position_qty > 0 then
        .ok ⟨.SELL, |pyInt position_qty|, .anyDownward price_change_pct⟩
      else if price_change_pct > confidence_threshold * 2 ∧ position_qty > 0 then
        .ok ⟨.BUY, 5, .strongUpward price_change_pct⟩
      else
        .ok ⟨.HOLD, 0, .belowThreshold price_change_pct⟩

example :
    calculate_trade_decision (some 100) (some 105) 0 (2/100) =
      .ok ⟨.BUY, 10, .predictedIncrease (5/100)⟩ := by
  norm_num [calculate_trade_decision]

example :
    calculate_trade_decision (some 100) (some (999/10)) 15 (15/1000) =
      .ok ⟨.SELL, 15, .anyDownward (-(1/1000))⟩ := by
  norm_num [calculate_trade_decision, pyInt]

example :
    calculate_trade_decision (some 100) (some 110) 10 (15/1000) =
      .ok ⟨.BUY, 5, .strongUpward (1/10)⟩ := by
  norm_num [calculate_trade_decision, pyInt]

example :
    calculate_trade_decision none (some 105) 0 (2/100) =
      .ok ⟨.HOLD, 0, .missingPriceData⟩ := rfl

example :
    calculate_trade_decision (some 0) (some 105) 0 (2/100) =
      .error .ZeroDivisionError := by
  norm_num [calculate_trade_decision]

/-! ### Broker data model and protective orders -/

/-- Side of an order (`alpaca.trading.enums.OrderSide`). -/
inductive OrderSide where
  | BUY
  | SELL
deriving DecidableEq, Repr

/-- Time-in-force of an order (`alpaca.trading.enums.TimeInForce`). -/
inductive TimeInForce where
  | DAY
  | GTC
deriving DecidableEq, Repr

/-- Side of a broker-reported position; in the source this is the string
`'long'` or `'short'` read via `getattr(position, 'side', 'long')`. -/
inductive PosSide where
  | long
  | short
deriving DecidableEq, Repr

/-- A broker-reported open position as the source reads it: a quantity
(the code takes its absolute value before use), a side string, and the
average entry price. -/
structure Position where
  qty : ℚ
  side : PosSide
  avg_entry_price : ℚ
deriving DecidableEq, Repr

/-- An `alpaca.trading.requests.StopOrderRequest` as constructed by the
source: symbol, integer quantity, side, time-in-force and stop price. -/
structure StopOrderRequest where
  symbol : String
  qty : ℤ
  side : OrderSide
  time_in_force : TimeInForce
  stop_price : ℚ
deriving DecidableEq, Repr

/-- An `alpaca.trading.requests.MarketOrderRequest` as constructed by
`place_order` in `backend/src/agent.py` (time-in-force `DAY`). -/
structure MarketOrderRequest where
  symbol : String
  qty : ℤ
  side : OrderSide
  time_in_force : TimeInForce
deriving DecidableEq, Repr

/-- Shallow embedding of `StopLossManager.place_stop_loss_order` from
`backend/src/stop_loss_manager.py` (lines 21-78).  The broker lookup
`get_open_position` is passed in as the `position` argument; `none` models
both a missing position and the `qty == 0` early return (the source returns
`None` without submitting in both cases).  The result is the stop order
submitted, if any. -/
def place_stop_loss_order (ticker : String) (stop_loss_pct : ℚ)
    (position : Option Position) : Option StopOrderRequest :=
  match position with
  | none => none
  | some position =>
    let qty := |position.qty|
    let side := position.side
    let avg_entry_price := position.avg_entry_price
    if qty = 0 then none
    else
      let stop_loss_price :=
        if side = .long then avg_entry_price * (1 - stop_loss_pct)
        else avg_entry_price * (1 + stop_loss_pct)
      let order_side : OrderSide := if side = .long then .SELL else .BUY
      some ⟨ticker, pyInt qty, order_side, .GTC, stop_loss_price⟩

/-- Shallow embedding of `setup_protective_orders_on_shutdown` from
`backend/src/agent.py` (lines 23-70).  Note: the source reads
`getattr(position, 'side', 'long')` but never uses it — the submitted order
is always `side=OrderSide.SELL` with stop price `avg_entry_price * (1 -
stop_loss_pct)`, regardless of the position side.  The default
`stop_loss_pct` is `0.03`. -/
def setup_protective_orders_on_shutdown (ticker : String) (stop_loss_pct : ℚ)
    (position : Option Position) : Option StopOrderRequest :=
  match position with
  | none => none
  | some position =>
    let qty := |position.qty|
    let avg_entry_price := position.avg_entry_price
    if qty = 0 then none
    else
      let stop_loss_price := avg_entry_price * (1 - stop_loss_pct)
      some ⟨ticker, pyInt qty, .SELL, .GTC, stop_loss_price⟩

/-- The order-execution step of one cycle of `run_agent_loop`
(`backend/src/agent.py` lines 264-277): a market order is submitted only
when the action is BUY or SELL *and* the decision quantity is strictly
positive; otherwise no order is placed. -/
def executeTrade (ticker : String) (decision : Decision) :
    Option MarketOrderRequest :=
  if decision.action = .BUY ∧ decision.qty > 0 then
    some ⟨ticker, decision.qty, .BUY, .DAY⟩
  else if decision.action = .SELL ∧ decision.qty > 0 then
    some ⟨ticker, decision.qty, .SELL, .DAY⟩
  else
    none

/-- The shutdown sequence at the end of `run_agent_loop`
(`backend/src/agent.py` lines 296-301): after the `while` loop exits —
whether by the loop condition, by a `break` in a sleep loop, or by the
`except asyncio.CancelledError: break` handler — the protective-order step
`setup_protective_orders_on_shutdown` runs only under
`if shutdown_requested:`.  `shutdown_requested` is the module-level global
set exclusively by the SIGINT/SIGTERM `signal_handler`.  Returns the list
of protective stop orders submitted. -/
def run_agent_loop_shutdown_orders (shutdown_requested : Bool)
    (ticker : String) (position : Option Position) : List StopOrderRequest :=
  if shutdown_requested then
    match setup_protective_orders_on_shutdown ticker (3/100) position with
    | some o => [o]
    | none => []
  else []

/-- Protective stop orders submitted when the loop terminates because
`stop_agent` (`backend/src/api.py` lines 255-291) cancelled its task:
`stop_agent` calls `agent_task.cancel()` and awaits the task, but never
sets the `shutdown_requested` global in `backend/src/agent.py`; the
`CancelledError` is caught inside the loop body (line 286) and breaks the
`while`, after which the epilogue runs with `shutdown_requested` still
equal to whatever the OS signal handler left it (`false` when no SIGINT or
SIGTERM arrived). -/
def api_stop_protective_orders (signal_arrived : Bool) (ticker : String)
    (position : Option Position) : List StopOrderRequest :=
  run_agent_loop_shutdown_orders signal_arrived ticker position

/-! ### Command surface: the agent control endpoints of `backend/src/api.py` -/

/-- Renders an `Optional[str]` the way a Python f-string does: `None` prints
as the string `None`. -/
def optTickerStr : Option String → String
  | none => "None"
  | some s => s

/-- The module-level agent state of `backend/src/globals.py`: `agent_running`,
`agent_task` (an `Optional[asyncio.Task]`, modelled as an optional task
handle id) and `current_ticker`. -/
structure AgentGlobals where
  agent_running : Bool
  agent_task : Option ℕ
  current_ticker : Option String
deriving DecidableEq, Repr

/-- The `{"status": ..., "message": ...}` dict returned by the agent control
endpoints. -/
structure ApiResponse where
  status : String
  message : String
deriving DecidableEq, Repr

/-- Shallow embedding of `start_agent` (`backend/src/api.py` lines 227-253).
If the agent is already running the endpoint returns an error naming the
current ticker and leaves the globals untouched — no task is created (the
guard is evaluated before the `try` block, with no suspension point between
the check and the assignments, so the check-and-set is atomic under
asyncio's cooperative scheduling).  Otherwise a fresh loop task (handle
`new_task`) is created and the three globals are set.  Failures of the
fire-and-forget log broadcasts after the assignments are not modelled. -/
def start_agent (g : AgentGlobals) (ticker : String) (new_task : ℕ) :
    ApiResponse × AgentGlobals :=
  if g.agent_running then
    (⟨"error", "Agent is already running for " ++ optTickerStr g.current_ticker⟩, g)
  else
    (⟨"success",
      "Auto-trading agent started for " ++ ticker ++
        ". Will buy/sell automatically based on predictions."⟩,
     ⟨true, some new_task, some ticker⟩)

/-- Shallow embedding of `stop_agent` (`backend/src/api.py` lines 255-291).
`exn = some e` models an exception with text `e` raised inside the `try`
block (cancel, await, or a broadcast); the `except` handler force-stops and
resets all three globals exactly as the graceful path does.  When the agent
is not running the endpoint returns an error and changes nothing. -/
def stop_agent (g : AgentGlobals) (exn : Option String) :
    ApiResponse × AgentGlobals :=
  if ¬g.agent_running then
    (⟨"error", "No agent is currently running"⟩, g)
  else
    match exn with
    | some e => (⟨"error", "Agent force-stopped: " ++ e⟩, ⟨false, none, none⟩)
    | none =>
      (⟨"success",
        "Agent stopped and protective orders placed for " ++
          optTickerStr g.current_ticker⟩,
       ⟨false, none, none⟩)

/-! ### Startup availability check: `wait_for_api` -/

/-- Outcome of one `client.get(api_url, timeout=5)` attempt in
`wait_for_api`: a 200 response, a non-200 response (falls through to the
next iteration with no sleep), or an `httpx.RequestError` (broadcast then
`asyncio.sleep(delay)`). -/
inductive AttemptOutcome where
  | ok
  | badStatus
  | requestError
deriving DecidableEq, Repr

/-- Result of the startup availability check: whether it returned `True`,
how many attempts were performed, and the total seconds spent in
`asyncio.sleep`. -/
structure WaitResult where
  success : Bool
  attempts : ℕ
  slept : ℕ
deriving DecidableEq, Repr

/-- The `for i in range(retries)` loop of `wait_for_api`, starting at
attempt index `i` with `rem` iterations remaining. -/
def wait_for_api_from (outcome : ℕ → AttemptOutcome) (delay : ℕ) :
    ℕ → ℕ → WaitResult
  | _, 0 => ⟨false, 0, 0⟩
  | i, rem + 1 =>
    match outcome i with
    | .ok => ⟨true, 1, 0⟩
    | .badStatus =>
      let r := wait_for_api_from outcome delay (i + 1) rem
      ⟨r.success, r.attempts + 1, r.slept⟩
    | .requestError =>
      let r := wait_for_api_from outcome delay (i + 1) rem
      ⟨r.success, r.attempts + 1, r.slept + delay⟩

set_option linter.unusedVariables false in
/-- Shallow embedding of `wait_for_api` (`backend/src/agent.py` lines
165-183, defaults `retries = 20`, `delay = 10`).  The `shutdown_requested`
parameter is the module-level global set by the SIGINT/SIGTERM handler; it
is passed through to mirror the process state, but the body of
`wait_for_api` in the source contains no read of it — the retry loop has no
cancellation check of any granularity, so the result cannot depend on it. -/
def wait_for_api (outcome : ℕ → AttemptOutcome) (shutdown_requested : Bool)
    (retries delay : ℕ) : WaitResult :=
  wait_for_api_from outcome delay 0 retries

/-! ### Helper lemmas -/

/-- Python `int()` of a rational strictly between 0 and 1 truncates to 0. -/
theorem pyInt_eq_zero_of_lt_one {q : ℚ} (h0 : 0 < q) (h1 : q < 1) :
    pyInt q = 0 :=
  Int.tdiv_eq_zero_of_lt (le_of_lt (Rat.num_pos.mpr h0))
    (Rat.lt_one_iff_num_lt_denom.mp h1)

/-- Any downward prediction while holding a long position yields SELL of the
truncated absolute position size: rule 1 cannot fire (the change is negative
while the threshold is not), and whichever of rules 2 and 3 fires first
returns the same action and quantity. -/
theorem downward_sell (current predicted position_qty t : ℚ)
    (hc : 0 < current) (hp : predicted < current)
    (hq : 0 < position_qty) :
    ∃ r, calculate_trade_decision (some current) (some predicted) position_qty t =
      .ok ⟨.SELL, |pyInt position_qty|, r⟩ := by
  have hc0 : current ≠ 0 := ne_of_gt hc
  have hpct : (predicted - current) / current < 0 :=
    div_neg_of_neg_of_pos (by linarith) hc
  simp only [calculate_trade_decision]
  rw [if_neg hc0]
  have h1 : ¬((predicted - current) / current > t ∧ position_qty = 0) := by
    rintro ⟨-, h⟩
    exact absurd h (ne_of_gt hq)
  rw [if_neg h1]
  by_cases h2 : (predicted - current) / current < -t / 2 ∧ position_qty > 0
  · rw [if_pos h2]
    exact ⟨_, rfl⟩
  · rw [if_neg h2, if_pos (And.intro hpct hq)]
    exact ⟨_, rfl⟩

/-! ### Claims -/

/-- Claim C2, counterexample.  At the concrete input `current = None`,
`predicted = 105`, the decision is HOLD with quantity 0 as claimed, but the
reason string of the source is `Missing price data` (capital M), not
`missing price data` as the claim quotes it. -/
theorem c2_reason_capitalization_counterexample :
    calculate_trade_decision none (some 105) 0 (2/100) =
      .ok ⟨.HOLD, 0, .missingPriceData⟩ ∧
    Reason.text .missingPriceData = "Missing price data" ∧
    Reason.text .missingPriceData ≠ "missing price data" :=
  ⟨rfl, rfl, by decide⟩

/-- Claim C2 as amended: whenever either price input is `None`,
`calculate_trade_decision` returns (never raises) the decision
`{action: HOLD, qty: 0, reason: "Missing price data"}`. -/
theorem c2_missing_price_holds (current predicted : Option ℚ)
    (position_qty t : ℚ) (h : current = none ∨ predicted = none) :
    calculate_trade_decision current predicted position_qty t =
      .ok ⟨.HOLD, 0, .missingPriceData⟩ ∧
    Reason.text .missingPriceData = "Missing price data" := by
  refine ⟨?_, rfl⟩
  rcases h with h | h
  · subst h; cases predicted <;> rfl
  · subst h; cases current <;> rfl

/-- Claim C2 witness: the theorem applied at `current = None`,
`predicted = 105`. -/
theorem c2_missing_price_holds_witness :
    calculate_trade_decision none (some 105) 0 (2/100) =
      .ok ⟨.HOLD, 0, .missingPriceData⟩ ∧
    Reason.text .missingPriceData = "Missing price data" :=
  c2_missing_price_holds none (some 105) 0 (2/100) (Or.inl rfl)

/-- Claim C3: for every pair of non-null prices with `predicted < current`
(positive current price, hence negative percentage change), every
`position_qty > 0` and every threshold, the decision is SELL
with quantity the integer-truncated absolute position size — whether or not
the drop exceeds `threshold/2`, since rules 2 and 3 return the same action
and quantity. -/
theorem c3_downward_with_position_sells
    (current predicted position_qty t : ℚ) (hc : 0 < current)
    (hp : predicted < current) (hq : 0 < position_qty) :
    ∃ r, calculate_trade_decision (some current) (some predicted) position_qty t =
      .ok ⟨.SELL, |pyInt position_qty|, r⟩ :=
  downward_sell current predicted position_qty t hc hp hq

/-- Claim C3 witness: at `current = 100`, `predicted = 99`,
`position_qty = 15`, `threshold = 0.015`. -/
theorem c3_downward_with_position_sells_witness :
    (0:ℚ) < 100 ∧ (99:ℚ) < 100 ∧ (0:ℚ) < 15 ∧
    ∃ r, calculate_trade_decision (some 100) (some 99) 15 (15/1000) =
      .ok ⟨.SELL, |pyInt 15|, r⟩ :=
  ⟨by norm_num, by norm_num, by norm_num,
    c3_downward_with_position_sells 100 99 15 (15/1000)
      (by norm_num) (by norm_num) (by norm_num)⟩

/-- Claim C5: when the predicted change exceeds the confidence threshold and
there is no position, the decision is BUY of exactly 10 units, and the
reason is the template citing the predicted percentage increase. -/
theorem c5_strong_upward_no_position_buys (current predicted t : ℚ)
    (hc : 0 < current) (ht : (predicted - current) / current > t) :
    calculate_trade_decision (some current) (some predicted) 0 t =
      .ok ⟨.BUY, 10, .predictedIncrease ((predicted - current) / current)⟩ ∧
    Reason.text (.predictedIncrease ((predicted - current) / current)) =
      "Predicted " ++ toString ((predicted - current) / current * 100) ++
        "% increase, no current position" := by
  have hc0 : current ≠ 0 := ne_of_gt hc
  refine ⟨?_, rfl⟩
  simp only [calculate_trade_decision]
  rw [if_neg hc0, if_pos (And.intro ht trivial)]

/-- Claim C5 witness: at `current = 100`, `predicted = 105`,
`threshold = 0.02` (the spec's example scenario 1). -/
theorem c5_strong_upward_no_position_buys_witness :
    (0:ℚ) < 100 ∧ ((105:ℚ) - 100) / 100 > 2/100 ∧
    (calculate_trade_decision (some 100) (some 105) 0 (2/100) =
      .ok ⟨.BUY, 10, .predictedIncrease ((105 - 100) / 100)⟩ ∧
    Reason.text (.predictedIncrease (((105:ℚ) - 100) / 100)) =
      "Predicted " ++ toString (((105:ℚ) - 100) / 100 * 100) ++
        "% increase, no current position") :=
  ⟨by norm_num, by norm_num,
    c5_strong_upward_no_position_buys 100 105 (2/100) (by norm_num) (by norm_num)⟩

/-- Claim C8: the decision function is total only when the current price is
nonzero — a non-null current price of exactly 0 reaches the division
`(predicted - current) / current` (the only guard checks for `None`, not 0)
and raises `ZeroDivisionError`; any nonzero current price yields a normal
decision. -/
theorem c8_zero_current_price_raises :
    (∀ predicted position_qty t : ℚ,
      calculate_trade_decision (some 0) (some predicted) position_qty t =
        .error .ZeroDivisionError) ∧
    (∀ current predicted position_qty t : ℚ, current ≠ 0 →
      (calculate_trade_decision (some current) (some predicted) position_qty t).isOk =
        true) := by
  constructor
  · intro predicted position_qty t
    simp [calculate_trade_decision]
  · intro current predicted position_qty t hc
    simp only [calculate_trade_decision]
    rw [if_neg hc]
    split_ifs <;> rfl

/-- Claim C8 witness: the division-by-zero branch at `current = 0`,
`predicted = 105`, and totality at `current = 100`. -/
theorem c8_zero_current_price_raises_witness :
    calculate_trade_decision (some 0) (some 105) 0 (2/100) =
      .error .ZeroDivisionError ∧
    (calculate_trade_decision (some 100) (some 105) 0 (2/100)).isOk = true :=
  ⟨c8_zero_current_price_raises.1 105 0 (2/100),
    c8_zero_current_price_raises.2 100 105 0 (2/100) (by norm_num)⟩

/-- Claim C10: a long position of fractional size strictly between 0 and 1
together with any downward prediction yields SELL with quantity 0 (integer
truncation), and the execution step of `run_agent_loop` submits no order
because it requires a strictly positive decision quantity. -/
theorem c10_fractional_position_no_order (ticker : String)
    (current predicted position_qty t : ℚ) (hc : 0 < current)
    (hp : predicted < current) (hq0 : 0 < position_qty)
    (hq1 : position_qty < 1) :
    ∃ r, calculate_trade_decision (some current) (some predicted) position_qty t =
        .ok ⟨.SELL, 0, r⟩ ∧
      executeTrade ticker ⟨.SELL, 0, r⟩ = none := by
  obtain ⟨r, hr⟩ := downward_sell current predicted position_qty t hc hp hq0
  have h0 : |pyInt position_qty| = (0:ℤ) := by
    rw [pyInt_eq_zero_of_lt_one hq0 hq1]
    exact abs_zero
  refine ⟨r, ?_, ?_⟩
  · rw [hr, h0]
  · simp [executeTrade]

/-- Claim C10 witness: at `ticker = "AAPL"`, `current = 100`,
`predicted = 99`, `position_qty = 1/2`, `threshold = 0.015`. -/
theorem c10_fractional_position_no_order_witness :
    (0:ℚ) < 100 ∧ (99:ℚ) < 100 ∧ (0:ℚ) < 1/2 ∧ (1/2:ℚ) < 1 ∧
    ∃ r, calculate_trade_decision (some 100) (some 99) (1/2) (15/1000) =
        .ok ⟨.SELL, 0, r⟩ ∧
      executeTrade "AAPL" ⟨.SELL, 0, r⟩ = none :=
  ⟨by norm_num, by norm_num, by norm_num, by norm_num,
    c10_fractional_position_no_order "AAPL" 100 99 (1/2) (15/1000)
      (by norm_num) (by norm_num) (by norm_num) (by norm_num)⟩

/-- Maps a position side to the side of the order that closes it (the side
the spec calls "opposite the position"). -/
def PosSide.oppositeOrderSide : PosSide → OrderSide
  | .long => .SELL
  | .short => .BUY

/-- Claim C1: evaluation of the stop path at the failing input.  An
explicit `stop_agent` call with no OS signal (`shutdown_requested` still
`false`) against an open long position of 10 shares at entry 100 submits
zero protective orders — the epilogue of `run_agent_loop` is guarded by
`if shutdown_requested:`, a global only the SIGINT/SIGTERM handler sets,
so `setup_protective_orders_on_shutdown` never runs on the explicit-stop
path.  The second conjunct shows the signal-flag path does submit exactly
the one protective stop order the claim (and the docstring of `stop_agent`
and its broadcasts) promise. -/
theorem c1_api_stop_places_no_protective_order :
    api_stop_protective_orders false "AAPL" (some ⟨10, .long, 100⟩) = [] ∧
    run_agent_loop_shutdown_orders true "AAPL" (some ⟨10, .long, 100⟩) =
      [⟨"AAPL", 10, .SELL, .GTC, 97⟩] := by
  refine ⟨rfl, ?_⟩
  have h10 : |(10:ℚ)| ≠ 0 := by norm_num
  have hq : pyInt |(10:ℚ)| = 10 := by norm_num [pyInt]
  simp only [run_agent_loop_shutdown_orders, setup_protective_orders_on_shutdown,
    if_true, if_neg h10]
  rw [hq]
  norm_num

/-- Claim C4: the mutual-exclusion contract of the command surface.  A
start while running errors naming the current ticker and leaves the globals
(including the single task handle) untouched; a stop while not running
errors and changes nothing; after a successful start, a second start errors
naming the first ticker and the stored task handle is still the first one. -/
theorem c4_start_stop_mutual_exclusion :
    (∀ (g : AgentGlobals) (ticker : String) (task : ℕ),
      g.agent_running = true →
        (start_agent g ticker task).1.status = "error" ∧
        (start_agent g ticker task).1.message =
          "Agent is already running for " ++ optTickerStr g.current_ticker ∧
        (start_agent g ticker task).2 = g) ∧
    (∀ (g : AgentGlobals) (exn : Option String),
      g.agent_running = false →
        (stop_agent g exn).1.status = "error" ∧ (stop_agent g exn).2 = g) ∧
    (∀ (g : AgentGlobals) (t₁ t₂ : String) (n₁ n₂ : ℕ),
      g.agent_running = false →
        (start_agent (start_agent g t₁ n₁).2 t₂ n₂).1.status = "error" ∧
        (start_agent (start_agent g t₁ n₁).2 t₂ n₂).1.message =
          "Agent is already running for " ++ t₁ ∧
        (start_agent (start_agent g t₁ n₁).2 t₂ n₂).2.agent_task = some n₁) := by
  refine ⟨?_, ?_, ?_⟩
  · intro g ticker task h
    simp [start_agent, h]
  · intro g exn h
    simp [stop_agent, h]
  · intro g t₁ t₂ n₁ n₂ h
    simp [start_agent, h, optTickerStr]

/-- Claim C4 witness: the theorem applied at a running state
`⟨true, some 7, some "AAPL"⟩`, a stopped state, and a start-start
sequence from the initial state. -/
theorem c4_start_stop_mutual_exclusion_witness :
    ((start_agent ⟨true, some 7, some "AAPL"⟩ "TSLA" 8).1.status = "error" ∧
      (start_agent ⟨true, some 7, some "AAPL"⟩ "TSLA" 8).1.message =
        "Agent is already running for " ++ optTickerStr (some "AAPL") ∧
      (start_agent ⟨true, some 7, some "AAPL"⟩ "TSLA" 8).2 =
        ⟨true, some 7, some "AAPL"⟩) ∧
    ((stop_agent ⟨false, none, none⟩ none).1.status = "error" ∧
      (stop_agent ⟨false, none, none⟩ none).2 = ⟨false, none, none⟩) ∧
    ((start_agent (start_agent ⟨false, none, none⟩ "AAPL" 1).2 "TSLA" 2).1.status =
        "error" ∧
      (start_agent (start_agent ⟨false, none, none⟩ "AAPL" 1).2 "TSLA" 2).1.message =
        "Agent is already running for " ++ "AAPL" ∧
      (start_agent (start_agent ⟨false, none, none⟩ "AAPL" 1).2 "TSLA" 2).2.agent_task =
        some 1) :=
  ⟨c4_start_stop_mutual_exclusion.1 ⟨true, some 7, some "AAPL"⟩ "TSLA" 8 rfl,
    c4_start_stop_mutual_exclusion.2.1 ⟨false, none, none⟩ none rfl,
    c4_start_stop_mutual_exclusion.2.2 ⟨false, none, none⟩ "AAPL" "TSLA" 1 2 rfl⟩

/-- Claim C6, counterexample.  First: the shutdown-time invocation against a
short position (10 shares, entry 100, pct 0.03) submits a SELL stop at
`100 * (1 - 0.03) = 97`, not the BUY stop at `100 * (1 + 0.03) = 103` the
claim demands, because `setup_protective_orders_on_shutdown` reads the
position side but never uses it.  Second: against a long position of half a
share, `place_stop_loss_order` submits quantity `int(0.5) = 0`, not the
full absolute position size `0.5`. -/
theorem c6_protective_order_counterexample :
    setup_protective_orders_on_shutdown "AAPL" (3/100) (some ⟨10, .short, 100⟩) =
      some ⟨"AAPL", 10, .SELL, .GTC, 97⟩ ∧
    OrderSide.SELL ≠ PosSide.oppositeOrderSide .short ∧
    (97 : ℚ) ≠ 100 * (1 + 3/100) ∧
    place_stop_loss_order "AAPL" (5/100) (some ⟨1/2, .long, 100⟩) =
      some ⟨"AAPL", 0, .SELL, .GTC, 95⟩ ∧
    ((0 : ℤ) : ℚ) ≠ |(1/2 : ℚ)| := by
  have h10 : |(10:ℚ)| ≠ 0 := by norm_num
  have hhalf : |(1/2:ℚ)| ≠ 0 := by norm_num
  have habs : |(1/2:ℚ)| = 1/2 := by norm_num
  have hq10 : pyInt |(10:ℚ)| = 10 := by norm_num [pyInt]
  have hqhalf : pyInt |(1/2:ℚ)| = 0 := by
    rw [habs]
    exact pyInt_eq_zero_of_lt_one (by norm_num) (by norm_num)
  refine ⟨?_, by decide, by norm_num, ?_, by rw [habs]; norm_num⟩
  · simp only [setup_protective_orders_on_shutdown]
    rw [if_neg h10, hq10]
    norm_num
  · simp only [place_stop_loss_order]
    rw [if_neg hhalf, hqhalf]
    norm_num

/-- Claim C6 as amended: against an existing position with nonzero absolute
quantity, `StopLossManager.place_stop_loss_order` submits a single stop
order with side opposite the position, quantity the integer truncation of
the absolute position size, time-in-force GTC, and stop price
`entry * (1 - pct)` for long / `entry * (1 + pct)` for short; the
shutdown-time invocation submits the same truncated quantity with TIF GTC
but always side SELL and stop price `entry * (1 - pct)`, regardless of the
position side. -/
theorem c6_protective_order_fields (ticker : String) (pct qty avg : ℚ)
    (side : PosSide) (h : |qty| ≠ 0) :
    place_stop_loss_order ticker pct (some ⟨qty, side, avg⟩) =
      some ⟨ticker, pyInt |qty|, side.oppositeOrderSide, .GTC,
        if side = .long then avg * (1 - pct) else avg * (1 + pct)⟩ ∧
    setup_protective_orders_on_shutdown ticker pct (some ⟨qty, side, avg⟩) =
      some ⟨ticker, pyInt |qty|, .SELL, .GTC, avg * (1 - pct)⟩ := by
  constructor
  · simp only [place_stop_loss_order]
    rw [if_neg h]
    cases side <;> simp [PosSide.oppositeOrderSide]
  · simp only [setup_protective_orders_on_shutdown]
    rw [if_neg h]

/-- Claim C6 witness: the theorem applied to a long position of 10 shares
at entry 100 with pct 0.03 (the spec's example scenario 6). -/
theorem c6_protective_order_fields_witness :
    |(10:ℚ)| ≠ 0 ∧
    (place_stop_loss_order "AAPL" (3/100) (some ⟨10, .long, 100⟩) =
      some ⟨"AAPL", pyInt |(10:ℚ)|, PosSide.oppositeOrderSide .long, .GTC,
        if PosSide.long = .long then (100:ℚ) * (1 - 3/100) else 100 * (1 + 3/100)⟩ ∧
    setup_protective_orders_on_shutdown "AAPL" (3/100) (some ⟨10, .long, 100⟩) =
      some ⟨"AAPL", pyInt |(10:ℚ)|, .SELL, .GTC, (100:ℚ) * (1 - 3/100)⟩) :=
  ⟨by norm_num,
    c6_protective_order_fields "AAPL" (3/100) 10 100 .long (by norm_num)⟩

/-- Claim C7, counterexample.  With a shutdown signal pending from the very
start (`shutdown_requested = true`) and every attempt failing with a
request error, the startup retry loop still performs all 20 attempts and
sleeps the full 20 × 10 = 200 seconds of inter-attempt delay — it does not
abort within one check interval. -/
theorem c7_startup_retry_ignores_shutdown_counterexample :
    wait_for_api (fun _ => .requestError) true 20 10 = ⟨false, 20, 200⟩ := rfl

/-- When every attempt raises a request error, the retry loop performs all
remaining attempts and sleeps `delay` after each, independent of the start
index. -/
theorem wait_for_api_from_all_fail (delay i rem : ℕ) :
    wait_for_api_from (fun _ => .requestError) delay i rem =
      ⟨false, rem, rem * delay⟩ := by
  induction rem generalizing i with
  | zero => simp [wait_for_api_from, Nat.zero_mul]
  | succ n ih => simp [wait_for_api_from, ih, Nat.succ_mul]

/-- Claim C7 as amended: a shutdown signal received while the startup
availability check is retrying is never observed by the retry loop — the
body of `wait_for_api` reads no cancellation flag — so with every attempt
failing it performs all `retries` attempts and sleeps the full
`retries * delay` seconds of inter-attempt delay whatever the value of
`shutdown_requested`. -/
theorem c7_startup_retry_runs_all_attempts (shutdown_requested : Bool)
    (retries delay : ℕ) :
    wait_for_api (fun _ => .requestError) shutdown_requested retries delay =
      ⟨false, retries, retries * delay⟩ := by
  simp [wait_for_api, wait_for_api_from_all_fail]

/-- Claim C9: every completed `stop_agent` call on a running agent resets
the globals to `running = False`, `task = None`, `ticker = None`, on both
the graceful path and the exception/force-stop path; and after any
`stop_agent` call whatsoever the state never reports running. -/
theorem c9_stop_resets_state :
    (∀ (g : AgentGlobals) (exn : Option String), g.agent_running = true →
      (stop_agent g exn).2 = ⟨false, none, none⟩) ∧
    (∀ (g : AgentGlobals) (exn : Option String),
      (stop_agent g exn).2.agent_running = false) := by
  constructor
  · intro g exn h
    cases exn <;> simp [stop_agent, h]
  · intro g exn
    cases hg : g.agent_running
    · simp [stop_agent, hg]
    · cases exn <;> simp [stop_agent, hg]

/-- Claim C9 witness: the theorem applied to a running state with ticker
AAPL and handle 3, on the graceful path and on the exception path. -/
theorem c9_stop_resets_state_witness :
    (stop_agent ⟨true, some 3, some "AAPL"⟩ none).2 = ⟨false, none, none⟩ ∧
    (stop_agent ⟨true, some 3, some "AAPL"⟩ (some "boom")).2 =
      ⟨false, none, none⟩ :=
  ⟨c9_stop_resets_state.1 ⟨true, some 3, some "AAPL"⟩ none rfl,
    c9_stop_resets_state.1 ⟨true, some 3, some "AAPL"⟩ (some "boom") rfl⟩

end TradingAgent
